import Mathlib

/-!
Verification development for the debt scenario calculation engine of the
repository (src/app and src/backend).  The definitions below are shallow
embeddings of the Python source: currency amounts and rates are modelled as
exact rationals, the month-by-month loops as fuel-bounded recursions (the
source bounds every loop by the 600-month safety horizon, so a fuel of 600
is exact), and the database lookups the calculator performs (the card
minimum-payment percentage, the customer cashflow row, the offer table) as
explicit parameters.  The optional per-month breakdown lists produced by the
backend version are not modelled: they are derived output that none of the
totals depend on.
-/

set_option maxRecDepth 8000
structure DebtItem where
  id : String
  debt_type : String
  balance : ℚ
  annual_rate_pct : ℚ
  minimum_payment : ℚ
  days_past_due : ℕ
  priority_score : ℚ
  min_payment_pct : Option ℚ := none
deriving DecidableEq

/-- Payment plan for a specific debt (class PaymentPlan).  The optional
monthly_breakdown field of the backend version is not modelled. -/
structure PaymentPlan where
  debt_id : String
  monthly_payment : ℚ
  payoff_months : ℕ
  total_interest : ℚ
  total_payments : ℚ
deriving DecidableEq

/-- Complete scenario calculation result (class ScenarioResult). -/
structure ScenarioResult where
  scenario_name : String
  total_monthly_payment : ℚ
  total_payoff_months : ℕ
  total_interest : ℚ
  total_payments : ℚ
  savings_vs_minimum : ℚ
  payment_plans : List PaymentPlan
  description : String
deriving DecidableEq

/-- Customer cashflow row (class CustomerCashflow in models/customer.py). -/
structure CustomerCashflow where
  monthly_income_avg : ℚ
  income_variability_pct : ℚ
  essential_expenses_avg : ℚ
deriving DecidableEq

/-- CustomerCashflow.conservative_cashflow: income discounted by the
variability haircut, minus essential expenses, clamped at zero. -/
def CustomerCashflow.conservative_cashflow (c : CustomerCashflow) : ℚ :=
  max 0 (c.monthly_income_avg * (1 - c.income_variability_pct / 100)
          - c.essential_expenses_avg)

/-- Bank consolidation offer (class BankOffer in models/payment.py).
max_term_months is an integer in the source; a non-positive stored value is
modelled by 0, which is the value the calculate_new_payment guard tests. -/
structure BankOffer where
  id : String
  product_types_eligible : List String
  max_consolidated_balance : ℚ
  new_rate_pct : ℚ
  max_term_months : ℕ
deriving DecidableEq

/-- BankOffer.calculate_new_payment: standard amortizing-loan payment
formula, degenerating to balance/term at zero rate, and returning 0 for a
non-positive term or balance. -/
def BankOffer.calculate_new_payment (o : BankOffer) (consolidated_balance : ℚ) : ℚ :=
  if o.max_term_months ≤ 0 ∨ consolidated_balance ≤ 0 then 0
  else
    let monthly_rate := o.new_rate_pct / 100 / 12
    if monthly_rate = 0 then consolidated_balance / o.max_term_months
    else
      consolidated_balance * (monthly_rate * (1 + monthly_rate) ^ o.max_term_months)
        / ((1 + monthly_rate) ^ o.max_term_months - 1)

/-- Loan row (class Loan in backend models/debt.py); only the fields the
calculation engine reads are modelled. -/
structure Loan where
  id : String
  principal : ℚ
  annual_rate_pct : ℚ
  remaining_term_months : ℕ
  collateral : Bool
  days_past_due : ℕ
deriving DecidableEq

/-- Loan.monthly_rate. -/
def Loan.monthly_rate (l : Loan) : ℚ := l.annual_rate_pct / 100 / 12

/-- Loan.minimum_payment: amortization-formula payment over the remaining
term, with the zero-term and zero-rate degenerate cases of the source. -/
def Loan.minimum_payment (l : Loan) : ℚ :=
  if l.remaining_term_months ≤ 0 then l.principal
  else if l.monthly_rate = 0 then l.principal / l.remaining_term_months
  else
    l.principal * (l.monthly_rate * (1 + l.monthly_rate) ^ l.remaining_term_months)
      / ((1 + l.monthly_rate) ^ l.remaining_term_months - 1)

/-- Loan.priority_score: base rate, plus half a point per day past due when
past due, plus 5 for unsecured (no collateral) loans. -/
def Loan.priority_score (l : Loan) : ℚ :=
  let score := l.annual_rate_pct
  let score := if 0 < l.days_past_due then score + l.days_past_due * (1/2) else score
  if l.collateral then score else score + 5

/-- Card row (class Card in backend models/debt.py). -/
structure Card where
  id : String
  balance : ℚ
  annual_rate_pct : ℚ
  min_payment_pct : ℚ
  days_past_due : ℕ
deriving DecidableEq

/-- Card.minimum_payment: percentage of current balance. -/
def Card.minimum_payment (c : Card) : ℚ := c.balance * (c.min_payment_pct / 100)

/-- Card.priority_score: base rate, plus half a point per day past due when
past due, plus a fixed 10 for the revolving nature of cards. -/
def Card.priority_score (c : Card) : ℚ :=
  let score := c.annual_rate_pct
  let score := if 0 < c.days_past_due then score + c.days_past_due * (1/2) else score
  score + 10

/-- DebtItem built from a loan, as get_customer_debts does. -/
def loanToDebtItem (l : Loan) : DebtItem :=
  { id := l.id, debt_type := "loan", balance := l.principal,
    annual_rate_pct := l.annual_rate_pct, minimum_payment := l.minimum_payment,
    days_past_due := l.days_past_due, priority_score := l.priority_score,
    min_payment_pct := none }

/-- DebtItem built from a card, as get_customer_debts does; the card's
min_payment_pct is carried so the later database lookup can be modelled. -/
def cardToDebtItem (c : Card) : DebtItem :=
  { id := c.id, debt_type := "card", balance := c.balance,
    annual_rate_pct := c.annual_rate_pct, minimum_payment := c.minimum_payment,
    days_past_due := c.days_past_due, priority_score := c.priority_score,
    min_payment_pct := some c.min_payment_pct }

/-- Monthly rate of a debt item, as both payoff simulators compute it. -/
def monthlyRate (d : DebtItem) : ℚ := d.annual_rate_pct / 100 / 12

/-- Per-month payment used by the backend _calculate_debt_payoff: for a
credit card with a truthy min_payment_pct, when the simulated payment is the
stored minimum, the payment is recomputed each month as the percentage of
the live balance with a 10-currency-unit floor, clamped so the debt is not
overpaid; in every other case the fixed monthly payment is used. -/
def payoffCurrentPayment (d : DebtItem) (monthly_payment bal interest : ℚ) : ℚ :=
  if d.debt_type = "card" then
    match d.min_payment_pct with
    | some pct =>
        if pct ≠ 0 ∧ monthly_payment = d.minimum_payment then
          min (max (bal * (pct / 100)) 10) (bal + interest)
        else monthly_payment
    | none => monthly_payment
  else monthly_payment

/-- Result of one payoff simulation run.  The source's while loop exposes
months and the two accumulated totals through the returned PaymentPlan; the
final balance is kept here as well so that amortization can be stated. -/
structure RunResult where
  months : ℕ
  total_interest : ℚ
  total_payments : ℚ
  balance : ℚ
deriving DecidableEq

/-- The interest_payment local of the payoff loops: one month of interest on
the live balance. -/
def payoffInterest (d : DebtItem) (bal : ℚ) : ℚ := bal * monthlyRate d

/-- The principal_payment local of the backend payoff loop: the part of the
current payment left after interest, capped by the live balance. -/
def payoffPrincipal (d : DebtItem) (monthly_payment bal : ℚ) : ℚ :=
  min (payoffCurrentPayment d monthly_payment bal (payoffInterest d bal)
        - payoffInterest d bal) bal

/-- The while loop of the backend _calculate_debt_payoff
(src/backend/app/services/debt_calculator.py lines 611-644): while the
balance exceeds the 0.01 epsilon and fewer than 600 months have elapsed, pay
one month; a non-positive principal portion ends the run at the 999 sentinel
with the 10x-balance penalty totals.  fuel is only a termination bound; the
top-level entry uses fuel 600, which the months < 600 guard makes exact. -/
def payoffRun (d : DebtItem) (monthly_payment : ℚ) :
    ℕ → ℚ → ℕ → ℚ → ℚ → RunResult
  | 0, bal, m, ti, tp => ⟨m, ti, tp, bal⟩
  | fuel + 1, bal, m, ti, tp =>
    if 1/100 < bal ∧ m < 600 then
      if payoffPrincipal d monthly_payment bal ≤ 0 then
        ⟨999, d.balance * 10, d.balance * 10, bal⟩
      else
        payoffRun d monthly_payment fuel
          (bal - payoffPrincipal d monthly_payment bal) (m + 1)
          (ti + payoffInterest d bal)
          (tp + payoffCurrentPayment d monthly_payment bal (payoffInterest d bal))
    else ⟨m, ti, tp, bal⟩

/-- Backend _calculate_debt_payoff: zero plan for a non-positive payment or
balance, otherwise the payoff loop from the debt's balance. -/
def calculate_debt_payoff (d : DebtItem) (monthly_payment : ℚ) : PaymentPlan :=
  if monthly_payment ≤ 0 ∨ d.balance ≤ 0 then
    ⟨d.id, 0, 0, 0, 0⟩
  else
    let r := payoffRun d monthly_payment 600 d.balance 0 0 0
    ⟨d.id, monthly_payment, r.months, r.total_interest, r.total_payments⟩

/-- Result of the src/app payoff loop, which accumulates only months and
interest; total payments are derived afterwards as payment times months. -/
structure AppRunResult where
  months : ℕ
  total_interest : ℚ
deriving DecidableEq

/-- The principal_payment local of the src/app payoff loop: the fixed
payment less interest, capped by the live balance (the src/app loop never
recomputes the payment, not even for cards). -/
def appPrincipal (d : DebtItem) (monthly_payment bal : ℚ) : ℚ :=
  min (monthly_payment - payoffInterest d bal) bal

/-- The while loop of the src/app _calculate_debt_payoff
(src/app/services/debt_calculator.py lines 294-306): same epsilon, horizon
and sentinel as the backend loop, but with a fixed payment for every debt
type and no running total of payments. -/
def appPayoffRun (d : DebtItem) (monthly_payment : ℚ) :
    ℕ → ℚ → ℕ → ℚ → AppRunResult
  | 0, _, m, ti => ⟨m, ti⟩
  | fuel + 1, bal, m, ti =>
    if 1/100 < bal ∧ m < 600 then
      if appPrincipal d monthly_payment bal ≤ 0 then ⟨999, d.balance * 10⟩
      else
        appPayoffRun d monthly_payment fuel
          (bal - appPrincipal d monthly_payment bal) (m + 1)
          (ti + payoffInterest d bal)
    else ⟨m, ti⟩

/-- src/app _calculate_debt_payoff: zero plan for a non-positive payment or
balance, otherwise the loop result, with total_payments set to
monthly_payment times the returned month count (also in the sentinel case,
where the month count is 999). -/
def app_calculate_debt_payoff (d : DebtItem) (monthly_payment : ℚ) : PaymentPlan :=
  if monthly_payment ≤ 0 ∨ d.balance ≤ 0 then
    ⟨d.id, 0, 0, 0, 0⟩
  else
    let r := appPayoffRun d monthly_payment 600 d.balance 0 0
    ⟨d.id, monthly_payment, r.months, r.total_interest, monthly_payment * r.months⟩

/-- Unfolding lemma: the backend payoff loop stops when its guard fails. -/
def c1Debt : DebtItem :=
  { id := "L1", debt_type := "loan", balance := 10, annual_rate_pct := 0,
    minimum_payment := 100, days_past_due := 0, priority_score := 5 }

/-- C1: counterexample.  The debt c1Debt is simulated with a payment of 100,
which amortizes it in a single month without ever hitting the non-amortizing
failure case, yet the returned plan has total_payments = 100 against
total_interest + original balance = 10: the conservation defect is 90,
far beyond the claimed 1-currency-unit tolerance.  The backend loop adds the
full fixed payment to total_payments even in the final month, where only the
remaining balance plus interest is owed. -/
def c1WitnessDebt : DebtItem :=
  { id := "W1", debt_type := "loan", balance := 1000, annual_rate_pct := 12,
    minimum_payment := 100, days_past_due := 0, priority_score := 17 }

/-- C1 (amended) witness: the amended bound instantiated on c1WitnessDebt
with payment 100, whose simulation ends amortized after 11 months. -/
def c2Debt : DebtItem :=
  { id := "S1", debt_type := "loan", balance := 1000, annual_rate_pct := 1200,
    minimum_payment := 5, days_past_due := 0, priority_score := 1205 }

/-- C2 witness: the sentinel theorem instantiated on c2Debt with payment 5
at the initial state of the simulation. -/
def c10WitnessDebt : DebtItem :=
  { id := "W10", debt_type := "loan", balance := 1200, annual_rate_pct := 0,
    minimum_payment := 100, days_past_due := 0, priority_score := 5 }

/-- C10 witness: the agreement instantiated on the zero-rate loan of 1200
paid at 100 per month, where both versions report 12 months, zero interest
and 1200 of total payments. -/
def c10Debt : DebtItem :=
  { id := "D10", debt_type := "loan", balance := 1000, annual_rate_pct := 1200,
    minimum_payment := 5, days_past_due := 0, priority_score := 1205 }

/-- C10: counterexample.  On c10Debt with payment 5 both implementations hit
the non-amortizing sentinel, and the src/app version reports total_payments
of 999 months times 5 = 4995 while the backend reports the 10x-balance
penalty 10000: the two PaymentPlans do not agree on total_payments in the
sentinel branch. -/
def sortByDesc (k : DebtItem → ℚ) (l : List DebtItem) : List DebtItem :=
  l.insertionSort (fun a b => k b ≤ k a)

/-- The greedy subset selection of the partial-consolidation branch
(backend debt_calculator.py lines 440-446): walk the rate-sorted list,
keeping each debt whose balance still fits in the remaining capacity and
demoting the others; returns kept debts, demoted debts and leftover
capacity. -/
def greedySelect : List DebtItem → ℚ → List DebtItem × List DebtItem × ℚ
  | [], cap => ([], [], cap)
  | d :: ds, cap =>
    if d.balance ≤ cap then
      let r := greedySelect ds (cap - d.balance)
      (d :: r.1, r.2.1, r.2.2)
    else
      let r := greedySelect ds cap
      (r.1, d :: r.2.1, r.2.2)

/-- Debt partition of calculate_consolidation_scenario (backend lines
418-450): split by eligible product type; when the eligible balance exceeds
the offer cap, sort the eligible debts by rate descending and keep the
greedy subset, appending the demoted debts to the unconsolidated bucket. -/
def consolidationPartition (debts : List DebtItem) (offer : BankOffer) :
    List DebtItem × List DebtItem :=
  let consolidatable := debts.filter
    (fun d => offer.product_types_eligible.contains d.debt_type)
  let unconsolidated := debts.filter
    (fun d => !(offer.product_types_eligible.contains d.debt_type))
  let total := (consolidatable.map (·.balance)).sum
  if offer.max_consolidated_balance < total then
    let r := greedySelect (sortByDesc (·.annual_rate_pct) consolidatable)
      offer.max_consolidated_balance
    (r.1, unconsolidated ++ r.2.1)
  else (consolidatable, unconsolidated)

/-- The per-month minimum payment used by the avalanche loop (backend lines
266-273): for a card with a truthy stored percentage, the percentage of the
live balance with a floor of 10, clamped to balance plus interest; otherwise
the stored minimum payment. -/
def effectiveMinPayment (d : DebtItem) (bal interest : ℚ) : ℚ :=
  if d.debt_type = "card" then
    match d.min_payment_pct with
    | some pct =>
        if pct ≠ 0 then min (max (bal * (pct / 100)) 10) (bal + interest)
        else d.minimum_payment
    | none => d.minimum_payment
  else d.minimum_payment

/-- Outcome of the first (minimum-payments) pass of one avalanche month:
updated balances, remaining budget, interest charged and amount paid. -/
structure MinPassResult where
  balances : List (DebtItem × ℚ)
  remaining : ℚ
  interest : ℚ
  paid : ℚ

/-- First pass of one avalanche month (backend lines 261-295): every debt
with balance above the epsilon is charged interest and paid the smallest of
its effective minimum, the remaining budget and balance plus interest; the
balance drops by the non-negative principal part and is zeroed when it falls
to the epsilon or below. -/
def minimumsPass : List (DebtItem × ℚ) → ℚ → MinPassResult
  | [], remaining => ⟨[], remaining, 0, 0⟩
  | (d, bal) :: rest, remaining =>
    if 1/100 < bal then
      let interest := bal * monthlyRate d
      let pay := min (effectiveMinPayment d bal interest) (min remaining (bal + interest))
      let principal := max 0 (pay - interest)
      let bal2 := bal - principal
      let bal3 := if bal2 ≤ 1/100 then 0 else bal2
      let o := minimumsPass rest (remaining - pay)
      ⟨(d, bal3) :: o.balances, o.remaining, interest + o.interest, pay + o.paid⟩
    else
      let o := minimumsPass rest remaining
      ⟨(d, bal) :: o.balances, o.remaining, o.interest, o.paid⟩

/-- Second pass of one avalanche month (backend lines 297-319): scan the
ranked debts and, at the first one that is still active while budget
remains, apply the whole remaining budget capped by that debt's balance,
then break; returns the updated balances and the extra amount applied. -/
def extraPass : List (DebtItem × ℚ) → ℚ → List (DebtItem × ℚ) × ℚ
  | [], _ => ([], 0)
  | (d, bal) :: rest, remaining =>
    if 1/100 < bal ∧ 0 < remaining then
      let extra := min remaining bal
      let bal2 := bal - extra
      let bal3 := if bal2 ≤ 1/100 then 0 else bal2
      ((d, bal3) :: rest, extra)
    else
      let o := extraPass rest remaining
      ((d, bal) :: o.1, o.2)

/-- One month of the cascading avalanche simulation: minimums for everyone,
then the leftover budget to the single top-ranked active debt.  Returns the
new balances, the interest charged this month and the amount paid this
month. -/
def monthStep (budget : ℚ) (l : List (DebtItem × ℚ)) :
    List (DebtItem × ℚ) × ℚ × ℚ :=
  let o := minimumsPass l budget
  let e := extraPass o.balances o.remaining
  (e.1, o.interest, o.paid + e.2)

/-- The avalanche while loop (backend lines 256-319): iterate monthStep
while some balance exceeds the epsilon and fewer than 600 months have
elapsed.  Returns final balances, months, total interest, total paid. -/
def simLoop (budget : ℚ) : ℕ → List (DebtItem × ℚ) → ℕ → ℚ → ℚ →
    List (DebtItem × ℚ) × ℕ × ℚ × ℚ
  | 0, l, m, ti, tp => (l, m, ti, tp)
  | fuel + 1, l, m, ti, tp =>
    if (l.any fun p => decide (1/100 < p.2)) ∧ m < 600 then
      let s := monthStep budget l
      simLoop budget fuel s.1 (m + 1) (ti + s.2.1) (tp + s.2.2)
    else (l, m, ti, tp)

/-- Backend calculate_minimum_payment_scenario: one payoff plan per debt at
its stored minimum payment, with summed totals and the maximum payoff
horizon. -/
def calculate_minimum_payment_scenario (debts : List DebtItem) : ScenarioResult :=
  let plans := debts.map (fun d => calculate_debt_payoff d d.minimum_payment)
  { scenario_name := "Pago Mínimo",
    total_monthly_payment := (plans.map (·.monthly_payment)).sum,
    total_payoff_months := (plans.map (·.payoff_months)).foldl max 0,
    total_interest := (plans.map (·.total_interest)).sum,
    total_payments := (plans.map (·.total_payments)).sum,
    savings_vs_minimum := 0,
    payment_plans := plans,
    description := "Escenario donde solo se pagan los montos mínimos requeridos." }

/-- Backend calculate_optimized_scenario: with no cashflow row the minimum
scenario is returned unchanged; with no positive extra budget the minimum
scenario is returned relabelled; otherwise the cascading avalanche
simulation runs over the debts sorted by annual rate descending.  The
per-debt payment plans the source reconstructs from the monthly breakdown
are not modelled (empty list); the happy-path description's interpolated
dollar amount is abbreviated. -/
def calculate_optimized_scenario (debts : List DebtItem)
    (cashflow : Option CustomerCashflow) : ScenarioResult :=
  match cashflow with
  | none => calculate_minimum_payment_scenario debts
  | some cf =>
    let available_budget := cf.conservative_cashflow
    let minimum_total := (debts.map (·.minimum_payment)).sum
    let extra_payment := max 0 (available_budget - minimum_total)
    if extra_payment ≤ 0 then
      let r := calculate_minimum_payment_scenario debts
      { r with scenario_name := "Plan Optimizado",
               description := "Sin flujo extra disponible. Se muestra escenario de pagos mínimos." }
    else
      let sorted_debts := sortByDesc (·.annual_rate_pct) debts
      let res := simLoop available_budget 600 (sorted_debts.map (fun d => (d, d.balance))) 0 0 0
      let minimum_scenario := calculate_minimum_payment_scenario debts
      { scenario_name := "Plan Optimizado",
        total_monthly_payment := available_budget,
        total_payoff_months := res.2.1,
        total_interest := res.2.2.1,
        total_payments := res.2.2.2,
        savings_vs_minimum := minimum_scenario.total_payments - res.2.2.2,
        payment_plans := [],
        description := "Método avalancha con cascada: extra aplicado estratégicamente." }

/-- Python's min over a non-empty list keyed by new_rate_pct: the leftmost
element with the smallest rate. -/
def pythonMinByRate (o : BankOffer) (os : List BankOffer) : BankOffer :=
  os.foldl (fun b x => if x.new_rate_pct < b.new_rate_pct then x else b) o

/-- Offer selection of the basic consolidation path (backend line 398 and
src/app line 193): the offer of minimal new_rate_pct, none if no offers. -/
def min_rate_offer : List BankOffer → Option BankOffer
  | [] => none
  | o :: os => some (pythonMinByRate o os)

/-- Processing of the unconsolidated debts when a cashflow row exists
(backend lines 520-543): walk the rate-sorted debts carrying the budget left
after the consolidated payment; a debt gets the whole remaining budget when
that exceeds its minimum, otherwise its minimum; the budget then shrinks by
the amount paid, clamped at zero.  Returns plans, summed monthly payments,
summed interest, summed payments and the maximum payoff horizon. -/
def consolidationRest : List DebtItem → ℚ → List PaymentPlan × ℚ × ℚ × ℚ × ℕ
  | [], _ => ([], 0, 0, 0, 0)
  | d :: ds, rb =>
    let pay := if d.minimum_payment < rb then rb else d.minimum_payment
    let plan := calculate_debt_payoff d pay
    let rb2 := if rb - pay < 0 then 0 else rb - pay
    let rest := consolidationRest ds rb2
    (plan :: rest.1, pay + rest.2.1, plan.total_interest + rest.2.2.1,
      plan.total_payments + rest.2.2.2.1, max plan.payoff_months rest.2.2.2.2)

/-- Processing of the unconsolidated debts when no cashflow row exists
(backend lines 544-552): every debt is paid its stored minimum. -/
def consolidationRestMin : List DebtItem → List PaymentPlan × ℚ × ℚ × ℚ × ℕ
  | [] => ([], 0, 0, 0, 0)
  | d :: ds =>
    let plan := calculate_debt_payoff d d.minimum_payment
    let rest := consolidationRestMin ds
    (plan :: rest.1, d.minimum_payment + rest.2.1, plan.total_interest + rest.2.2.1,
      plan.total_payments + rest.2.2.2.1, max plan.payoff_months rest.2.2.2.2)

/-- Backend calculate_consolidation_scenario on the basic path (the
eligible_offers_data argument is None, so the offers come straight from the
offer table): empty-debts and no-offer fallbacks, then the lowest-rate offer
is chosen with no usability filtering, the debts are partitioned under the
cap, the consolidated loan is priced with calculate_new_payment over the
offer's full term, and the unconsolidated debts are paid from the leftover
budget.  The multi-line interpolated description of the happy path is
abbreviated to the offer id. -/
def calculate_consolidation_scenario (debts : List DebtItem)
    (cashflow : Option CustomerCashflow) (offers : List BankOffer) : ScenarioResult :=
  if debts = [] then
    { scenario_name := "Consolidación", total_monthly_payment := 0,
      total_payoff_months := 0, total_interest := 0, total_payments := 0,
      savings_vs_minimum := 0, payment_plans := [],
      description := "No hay deudas para consolidar." }
  else
    match offers with
    | [] =>
      let r := calculate_optimized_scenario debts cashflow
      { r with scenario_name := "Consolidación",
               description := "No hay ofertas de consolidación disponibles. Se muestra plan optimizado." }
    | o :: os =>
      let best_offer := pythonMinByRate o os
      let part := consolidationPartition debts best_offer
      let total_consolidatable := (part.1.map (·.balance)).sum
      if total_consolidatable ≤ 0 then
        let r := calculate_optimized_scenario debts cashflow
        { r with scenario_name := "Consolidación",
                 description := "No hay deudas elegibles para consolidar. Se muestra plan optimizado." }
      else
        let consolidated_payment := best_offer.calculate_new_payment total_consolidatable
        let consolidated_total_payments := consolidated_payment * best_offer.max_term_months
        let consolidated_interest := consolidated_total_payments - total_consolidatable
        let consolidated_plan : PaymentPlan :=
          { debt_id := "CONSOLIDATED", monthly_payment := consolidated_payment,
            payoff_months := best_offer.max_term_months,
            total_interest := consolidated_interest,
            total_payments := consolidated_total_payments }
        let rest :=
          match cashflow with
          | some cf =>
            consolidationRest (sortByDesc (·.annual_rate_pct) part.2)
              (cf.conservative_cashflow - consolidated_payment)
          | none => consolidationRestMin part.2
        let total_payments := consolidated_total_payments + rest.2.2.2.1
        let minimum_scenario := calculate_minimum_payment_scenario debts
        { scenario_name := "Consolidación",
          total_monthly_payment := consolidated_payment + rest.2.1,
          total_payoff_months := max best_offer.max_term_months rest.2.2.2.2,
          total_interest := consolidated_interest + rest.2.2.1,
          total_payments := total_payments,
          savings_vs_minimum := minimum_scenario.total_payments - total_payments,
          payment_plans := consolidated_plan :: rest.1,
          description := "Consolidación con " ++ best_offer.id ++ "." }

/-- Concrete loan used in the missing-data fallback counterexample. -/
def c9Debt : DebtItem :=
  { id := "L9", debt_type := "loan", balance := 500, annual_rate_pct := 10,
    minimum_payment := 50, days_past_due := 0, priority_score := 15 }

/-- C9: counterexample.  With the cashflow row absent,
calculate_optimized_scenario returns the minimum scenario object unchanged:
its name is still the baseline name and its description is the generic
minimum-payment text, with no statement that a fallback occurred — contrary
to the claim that the returned description explicitly states the fallback. -/
def c6Loan : DebtItem :=
  { id := "L6", debt_type := "loan", balance := 1000, annual_rate_pct := 0,
    minimum_payment := 100, days_past_due := 0, priority_score := 5 }

/-- Cashflow with conservative 300 per month, well above the 100 minimum. -/
def c6Cash : CustomerCashflow :=
  { monthly_income_avg := 300, income_variability_pct := 0, essential_expenses_avg := 0 }

/-- A consolidation offer at 12 percent over 60 months. -/
def c6Offer : BankOffer :=
  { id := "O6", product_types_eligible := ["loan"], max_consolidated_balance := 5000,
    new_rate_pct := 12, max_term_months := 60 }

/-- C6: at this failing input the extra budget is positive (300 of
conservative cashflow against 100 of minimums), the minimum scenario pays
zero interest on the zero-rate loan, yet the consolidation scenario — which
reprices the debt at the chosen offer's 12 percent over its full 60-month
term — reports strictly more total interest than the minimum scenario,
violating the claimed monotonic-savings property. -/
def c8OfferZero : BankOffer :=
  { id := "OZ", product_types_eligible := ["loan"], max_consolidated_balance := 10000,
    new_rate_pct := 1, max_term_months := 0 }

/-- A normal competing offer at a higher rate. -/
def c8OfferNormal : BankOffer :=
  { id := "ON", product_types_eligible := ["loan"], max_consolidated_balance := 10000,
    new_rate_pct := 10, max_term_months := 60 }

/-- Loan to consolidate in the unusable-offer scenario. -/
def c8Loan : DebtItem :=
  { id := "L8", debt_type := "loan", balance := 1000, annual_rate_pct := 10,
    minimum_payment := 50, days_past_due := 0, priority_score := 15 }

/-- C8: the consolidation path performs no usability filtering: the
zero-term offer, having the lowest rate, is selected as best offer instead
of being skipped, and the resulting scenario prices the consolidated loan
with a zero payment over zero months, reporting a negative total interest of
-1000 — the balance is simply dropped.  The claimed silent exclusion of
offers with non-positive term or cap does not exist on this path. -/
def c5Offer : BankOffer :=
  { id := "O5", product_types_eligible := ["loan"], max_consolidated_balance := 10000,
    new_rate_pct := 10, max_term_months := 48 }

/-- First loan of Scenario C: 8000 at 15 percent. -/
def c5LoanA : DebtItem :=
  { id := "A5", debt_type := "loan", balance := 8000, annual_rate_pct := 15,
    minimum_payment := 200, days_past_due := 0, priority_score := 20 }

/-- Second loan of Scenario C: 7000 at 9 percent. -/
def c5LoanB : DebtItem :=
  { id := "B5", debt_type := "loan", balance := 7000, annual_rate_pct := 9,
    minimum_payment := 180, days_past_due := 0, priority_score := 14 }

/-- C5 witness: the cap theorem instantiated on Scenario C, where the two
eligible loans total 15000 against a cap of 10000 and the fitter keeps only
the 15 percent loan, demoting the 9 percent loan to the unconsolidated
bucket. -/
def offer_score (p : BankOffer × ℚ) : ℚ :=
  (1 / (p.1.new_rate_pct + 1)) * (7/10) + p.2 * (3/10)

/-- Python's max keyed by offer_score over a non-empty list of
offer/confidence pairs: the leftmost pair of maximal score
(_select_best_offer, enhanced_consolidation_service.py line 182). -/
def select_best_offer (e : BankOffer × ℚ) (es : List (BankOffer × ℚ)) : BankOffer × ℚ :=
  es.foldl (fun b x => if offer_score b < offer_score x then x else b) e

/-- The accumulator-tracked minimal-rate fold: its result has rate no larger
than the accumulator's and than any list element's, and is one of them. -/
def c7OfferA : BankOffer :=
  { id := "A7", product_types_eligible := ["loan"], max_consolidated_balance := 10000,
    new_rate_pct := 20, max_term_months := 36 }

/-- Higher-rate offer with full confidence. -/
def c7OfferB : BankOffer :=
  { id := "B7", product_types_eligible := ["loan"], max_consolidated_balance := 10000,
    new_rate_pct := 25, max_term_months := 36 }

/-- C7: counterexample.  In the enhanced selector the blended score
0.7/(rate+1) + 0.3*confidence lets confidence outweigh rate: the offer at 25
percent with confidence 1 scores higher than the offer at 20 percent with
confidence 0.7, so the strictly lower-rate offer is passed over — rate does
not dominate the tie-break. -/
def specApplyExtra : List (DebtItem × ℚ) → ℚ → List (DebtItem × ℚ)
  | [], _ => []
  | (d, bal) :: rest, r =>
    if 1/100 < bal then
      (d, if bal - min r bal ≤ 1/100 then 0 else bal - min r bal) :: rest
    else (d, bal) :: specApplyExtra rest r

/-- Specification-level amount of the avalanche second pass: the remaining
budget capped by the first active debt's balance, zero when no debt is
active. -/
def specExtraAmount (l : List (DebtItem × ℚ)) (r : ℚ) : ℚ :=
  match l.find? (fun p => decide (1/100 < p.2)) with
  | some p => min r p.2
  | none => 0

/-- With a positive remaining budget the source's second pass coincides with
the single-target specification form. -/
def c3DebtA : DebtItem :=
  { id := "A3", debt_type := "loan", balance := 50, annual_rate_pct := 30,
    minimum_payment := 10, days_past_due := 0, priority_score := 35 }

/-- Low-rate loan of the avalanche counterexample. -/
def c3DebtB : DebtItem :=
  { id := "B3", debt_type := "loan", balance := 1000, annual_rate_pct := 10,
    minimum_payment := 20, days_past_due := 0, priority_score := 15 }

/-- C3: counterexample.  With a budget of 500 against minimums of 30, one
avalanche month pays only 71.25 in total: after the top-ranked debt's 41.25
balance is cleared, the remaining 428.75 of budget is discarded for the
month instead of being applied to the still-active second debt — the
remaining budget is not "applied entirely", it is capped by the single
target's balance. -/
def c4Card : Card :=
  { id := "C4", balance := 3000, annual_rate_pct := 10, min_payment_pct := 3,
    days_past_due := 0 }

/-- Unsecured loan at a higher rate but lower priority score than c4Card. -/
def c4Loan : Loan :=
  { id := "L4", principal := 5000, annual_rate_pct := 12, remaining_term_months := 24,
    collateral := false, days_past_due := 0 }

/-- C4: counterexample.  The card scores 20 under the PriorityRanker (10 of
rate plus the card bonus of 10) against the loan's 17 (12 of rate plus the
unsecured bonus of 5), yet the backend avalanche allocator's ordering —
annual rate descending — puts the loan first: the allocator does not order
debts by the PriorityRanker score. -/
theorem payoffRun_stop (d : DebtItem) (mp : ℚ) (fuel : ℕ) (bal : ℚ) (m : ℕ)
    (ti tp : ℚ) (h : ¬(1/100 < bal ∧ m < 600)) :
    payoffRun d mp fuel bal m ti tp = ⟨m, ti, tp, bal⟩ := by
  cases fuel with
  | zero => rfl
  | succ f => simp only [payoffRun]; rw [if_neg h]

/-- Unfolding lemma: the backend payoff loop hits the sentinel as soon as
the principal portion is non-positive. -/
theorem payoffRun_sentinel (d : DebtItem) (mp : ℚ) (fuel : ℕ) (bal : ℚ)
    (m : ℕ) (ti tp : ℚ) (hb : 1/100 < bal) (hm : m < 600) (hf : fuel ≠ 0)
    (hp : payoffPrincipal d mp bal ≤ 0) :
    payoffRun d mp fuel bal m ti tp = ⟨999, d.balance * 10, d.balance * 10, bal⟩ := by
  obtain ⟨f, rfl⟩ := Nat.exists_eq_succ_of_ne_zero hf
  simp only [payoffRun]
  rw [if_pos ⟨hb, hm⟩, if_pos hp]

/-- Unfolding lemma: one regular month of the backend payoff loop. -/
theorem payoffRun_step (d : DebtItem) (mp : ℚ) (fuel : ℕ) (bal : ℚ) (m : ℕ)
    (ti tp : ℚ) (hb : 1/100 < bal) (hm : m < 600) (hf : fuel ≠ 0)
    (hp : ¬ payoffPrincipal d mp bal ≤ 0) :
    payoffRun d mp fuel bal m ti tp =
      payoffRun d mp (fuel - 1) (bal - payoffPrincipal d mp bal) (m + 1)
        (ti + payoffInterest d bal)
        (tp + payoffCurrentPayment d mp bal (payoffInterest d bal)) := by
  obtain ⟨f, rfl⟩ := Nat.exists_eq_succ_of_ne_zero hf
  simp only [payoffRun]
  rw [if_pos ⟨hb, hm⟩, if_neg hp]
  rfl

/-- Unfolding lemma: the src/app payoff loop stops when its guard fails. -/
theorem appPayoffRun_stop (d : DebtItem) (mp : ℚ) (fuel : ℕ) (bal : ℚ)
    (m : ℕ) (ti : ℚ) (h : ¬(1/100 < bal ∧ m < 600)) :
    appPayoffRun d mp fuel bal m ti = ⟨m, ti⟩ := by
  cases fuel with
  | zero => rfl
  | succ f => simp only [appPayoffRun]; rw [if_neg h]

/-- Unfolding lemma: the src/app payoff loop hits the sentinel as soon as
the principal portion is non-positive. -/
theorem appPayoffRun_sentinel (d : DebtItem) (mp : ℚ) (fuel : ℕ) (bal : ℚ)
    (m : ℕ) (ti : ℚ) (hb : 1/100 < bal) (hm : m < 600) (hf : fuel ≠ 0)
    (hp : appPrincipal d mp bal ≤ 0) :
    appPayoffRun d mp fuel bal m ti = ⟨999, d.balance * 10⟩ := by
  obtain ⟨f, rfl⟩ := Nat.exists_eq_succ_of_ne_zero hf
  simp only [appPayoffRun]
  rw [if_pos ⟨hb, hm⟩, if_pos hp]

/-- Unfolding lemma: one regular month of the src/app payoff loop. -/
theorem appPayoffRun_step (d : DebtItem) (mp : ℚ) (fuel : ℕ) (bal : ℚ)
    (m : ℕ) (ti : ℚ) (hb : 1/100 < bal) (hm : m < 600) (hf : fuel ≠ 0)
    (hp : ¬ appPrincipal d mp bal ≤ 0) :
    appPayoffRun d mp fuel bal m ti =
      appPayoffRun d mp (fuel - 1) (bal - appPrincipal d mp bal) (m + 1)
        (ti + payoffInterest d bal) := by
  obtain ⟨f, rfl⟩ := Nat.exists_eq_succ_of_ne_zero hf
  simp only [appPayoffRun]
  rw [if_pos ⟨hb, hm⟩, if_neg hp]
  rfl

example :
    (calculate_debt_payoff
      { id := "L1", debt_type := "loan", balance := 10, annual_rate_pct := 0,
        minimum_payment := 100, days_past_due := 0, priority_score := 0 }
      100).total_payments = 100 := by
  norm_num [calculate_debt_payoff, payoffRun_step, payoffRun_stop,
    payoffPrincipal, payoffCurrentPayment, payoffInterest, monthlyRate]

example :
    (calculate_debt_payoff
      { id := "L2", debt_type := "loan", balance := 1200, annual_rate_pct := 0,
        minimum_payment := 100, days_past_due := 0, priority_score := 0 }
      100).payoff_months = 12 := by
  norm_num [calculate_debt_payoff, payoffRun_step, payoffRun_stop,
    payoffPrincipal, payoffCurrentPayment, payoffInterest, monthlyRate]

/-- For a debt that is not a card, the backend loop always charges the fixed
monthly payment. -/
theorem payoffCurrentPayment_not_card (d : DebtItem) (mp bal i : ℚ)
    (h : d.debt_type ≠ "card") : payoffCurrentPayment d mp bal i = mp := by
  simp [payoffCurrentPayment, h]

/-- The live balance of the backend payoff loop never becomes negative. -/
theorem payoffRun_balance_nonneg (d : DebtItem) (mp : ℚ) :
    ∀ (fuel : ℕ) (bal : ℚ) (m : ℕ) (ti tp : ℚ), 0 ≤ bal →
      0 ≤ (payoffRun d mp fuel bal m ti tp).balance := by
  intro fuel
  induction fuel with
  | zero => intro bal m ti tp h; exact h
  | succ f ih =>
    intro bal m ti tp h
    by_cases hg : 1/100 < bal ∧ m < 600
    · by_cases hp : payoffPrincipal d mp bal ≤ 0
      · rw [payoffRun_sentinel d mp (f+1) bal m ti tp hg.1 hg.2 (Nat.succ_ne_zero f) hp]
        exact h
      · rw [payoffRun_step d mp (f+1) bal m ti tp hg.1 hg.2 (Nat.succ_ne_zero f) hp]
        simp only [Nat.add_sub_cancel]
        apply ih
        have : payoffPrincipal d mp bal ≤ bal := min_le_right _ _
        linarith
    · rw [payoffRun_stop d mp (f+1) bal m ti tp hg]
      exact h

/-- Conservation invariant of the backend payoff loop for debts paid with a
fixed payment: the quantity payments - interest + balance is unchanged by
every month except the last one, which can raise it by the part of the final
fixed payment that overshoots the remaining debt, a value in [0, payment). -/
theorem payoffRun_conservation (d : DebtItem) (mp : ℚ)
    (hcard : d.debt_type ≠ "card") (hrate : 0 ≤ d.annual_rate_pct) (hmp : 0 < mp) :
    ∀ (fuel : ℕ) (bal : ℚ) (m : ℕ) (ti tp : ℚ) (r : RunResult),
      payoffRun d mp fuel bal m ti tp = r → r.months ≠ 999 →
      0 ≤ (r.total_payments - r.total_interest + r.balance) - (tp - ti + bal) ∧
      (r.total_payments - r.total_interest + r.balance) - (tp - ti + bal) < mp := by
  intro fuel
  induction fuel with
  | zero =>
    intro bal m ti tp r hr _
    rw [← hr]
    simp only [payoffRun]
    constructor
    · simp
    · simp
      linarith
  | succ f ih =>
    intro bal m ti tp r hr h999
    by_cases hg : 1/100 < bal ∧ m < 600
    · by_cases hp : payoffPrincipal d mp bal ≤ 0
      · exfalso
        apply h999
        rw [← hr, payoffRun_sentinel d mp (f+1) bal m ti tp hg.1 hg.2 (Nat.succ_ne_zero f) hp]
      · rw [payoffRun_step d mp (f+1) bal m ti tp hg.1 hg.2 (Nat.succ_ne_zero f) hp] at hr
        simp only [Nat.add_sub_cancel] at hr
        have hcp : payoffCurrentPayment d mp bal (payoffInterest d bal) = mp :=
          payoffCurrentPayment_not_card d mp bal _ hcard
        have hI : 0 ≤ payoffInterest d bal := by
          have hb0 : (0:ℚ) ≤ bal := by linarith [hg.1]
          have : (0:ℚ) ≤ monthlyRate d := by
            unfold monthlyRate
            positivity
          exact mul_nonneg hb0 this
        rw [hcp] at hr
        rcases le_total (mp - payoffInterest d bal) bal with hle | hge
        · have hP : payoffPrincipal d mp bal = mp - payoffInterest d bal := by
            unfold payoffPrincipal
            rw [hcp]
            exact min_eq_left hle
          rw [hP] at hr
          have := ih _ _ _ _ r hr h999
          constructor <;> linarith [this.1, this.2]
        · have hP : payoffPrincipal d mp bal = bal := by
            unfold payoffPrincipal
            rw [hcp]
            exact min_eq_right hge
          rw [hP, sub_self] at hr
          rw [payoffRun_stop d mp f 0 (m+1) _ _ (by norm_num)] at hr
          rw [← hr]
          simp only
          constructor <;> linarith [hg.1, hI]
    · rw [← hr, payoffRun_stop d mp (f+1) bal m ti tp hg]
      constructor
      · simp
      · simp
        linarith

/-- Concrete debt used to refute the 1-unit conservation tolerance: a
zero-rate loan of 10 paid with a fixed payment of 100 amortizes in one
month, but the loop charges the full fixed payment in that final month. -/
theorem c1_conservation_counterexample :
    (calculate_debt_payoff c1Debt 100).payoff_months ≠ 999 ∧
    (calculate_debt_payoff c1Debt 100).total_payments
      - ((calculate_debt_payoff c1Debt 100).total_interest + c1Debt.balance) = 90 ∧
    (1:ℚ) < 90 := by
  refine ⟨?_, ?_, by norm_num⟩ <;>
    norm_num [calculate_debt_payoff, c1Debt, payoffRun_step, payoffRun_stop,
      payoffPrincipal, payoffCurrentPayment, payoffInterest, monthlyRate]

/-- C1 (amended): for a fixed-payment (non-card) debt with non-negative rate
and positive payment, if the simulation ends without the 999 sentinel and
with the final balance within the 0.01 termination epsilon (the payment was
sufficient to amortize the debt), then total_payments differs from
total_interest + original balance by at least -0.01 and strictly less than
one monthly payment; the 1-unit bound of the original claim holds only when
the final month's overshoot stays below 1. -/
theorem c1_conservation_amended (d : DebtItem) (mp : ℚ)
    (hcard : d.debt_type ≠ "card") (hrate : 0 ≤ d.annual_rate_pct)
    (hbal0 : 0 ≤ d.balance) (hmp : 0 < mp)
    (h999 : (payoffRun d mp 600 d.balance 0 0 0).months ≠ 999)
    (hend : (payoffRun d mp 600 d.balance 0 0 0).balance ≤ 1/100) :
    -(1/100) ≤ (payoffRun d mp 600 d.balance 0 0 0).total_payments
        - ((payoffRun d mp 600 d.balance 0 0 0).total_interest + d.balance) ∧
    (payoffRun d mp 600 d.balance 0 0 0).total_payments
        - ((payoffRun d mp 600 d.balance 0 0 0).total_interest + d.balance) < mp := by
  have hcons := payoffRun_conservation d mp hcard hrate hmp 600 d.balance 0 0 0
    (payoffRun d mp 600 d.balance 0 0 0) rfl h999
  have hnn := payoffRun_balance_nonneg d mp 600 d.balance 0 0 0 hbal0
  constructor <;> linarith [hcons.1, hcons.2]

/-- Concrete debt used to witness the amended conservation bound: a loan of
1000 at 12 percent annual rate paid with a fixed payment of 100. -/
theorem c1_conservation_amended_witness :
    c1WitnessDebt.debt_type ≠ "card" ∧
    (payoffRun c1WitnessDebt 100 600 c1WitnessDebt.balance 0 0 0).months ≠ 999 ∧
    (payoffRun c1WitnessDebt 100 600 c1WitnessDebt.balance 0 0 0).balance ≤ 1/100 ∧
    (-(1/100) ≤ (payoffRun c1WitnessDebt 100 600 c1WitnessDebt.balance 0 0 0).total_payments
        - ((payoffRun c1WitnessDebt 100 600 c1WitnessDebt.balance 0 0 0).total_interest
            + c1WitnessDebt.balance) ∧
      (payoffRun c1WitnessDebt 100 600 c1WitnessDebt.balance 0 0 0).total_payments
        - ((payoffRun c1WitnessDebt 100 600 c1WitnessDebt.balance 0 0 0).total_interest
            + c1WitnessDebt.balance) < 100) := by
  refine ⟨by decide, ?_, ?_, ?_⟩
  · norm_num [c1WitnessDebt, payoffRun_step, payoffRun_stop,
      payoffPrincipal, payoffCurrentPayment, payoffInterest, monthlyRate]
  · norm_num [c1WitnessDebt, payoffRun_step, payoffRun_stop,
      payoffPrincipal, payoffCurrentPayment, payoffInterest, monthlyRate]
  · exact c1_conservation_amended c1WitnessDebt 100
      (by decide) (by norm_num [c1WitnessDebt])
      (by norm_num [c1WitnessDebt]) (by norm_num)
      (by norm_num [c1WitnessDebt, payoffRun_step, payoffRun_stop,
        payoffPrincipal, payoffCurrentPayment, payoffInterest, monthlyRate])
      (by norm_num [c1WitnessDebt, payoffRun_step, payoffRun_stop,
        payoffPrincipal, payoffCurrentPayment, payoffInterest, monthlyRate])

/-- C2: whenever the backend payoff loop reaches a month in which the
current payment does not cover that month's interest (the principal portion
is non-positive), it returns at once — for every remaining fuel and without
any further iteration — the sentinel result with payoff months 999 and both
totals equal to ten times the debt's original balance; in particular, a
non-card debt whose very first month has payment at most the initial
interest produces the sentinel PaymentPlan from _calculate_debt_payoff. -/
theorem c2_sentinel (d : DebtItem) (mp : ℚ) (fuel : ℕ) (bal : ℚ) (m : ℕ)
    (ti tp : ℚ) (hb : 1/100 < bal) (hm : m < 600) (hf : fuel ≠ 0)
    (hp : payoffPrincipal d mp bal ≤ 0) :
    (payoffRun d mp fuel bal m ti tp).months = 999 ∧
    (payoffRun d mp fuel bal m ti tp).total_interest = d.balance * 10 ∧
    (payoffRun d mp fuel bal m ti tp).total_payments = d.balance * 10 ∧
    (d.debt_type ≠ "card" → 0 < mp → 1/100 < d.balance →
      mp ≤ payoffInterest d d.balance →
      (calculate_debt_payoff d mp).payoff_months = 999 ∧
      (calculate_debt_payoff d mp).total_interest = d.balance * 10) := by
  rw [payoffRun_sentinel d mp fuel bal m ti tp hb hm hf hp]
  refine ⟨rfl, rfl, rfl, ?_⟩
  intro hcard hmp hbal hint
  have hp0 : payoffPrincipal d mp d.balance ≤ 0 := by
    unfold payoffPrincipal
    rw [payoffCurrentPayment_not_card d mp d.balance _ hcard]
    calc min (mp - payoffInterest d d.balance) d.balance
        ≤ mp - payoffInterest d d.balance := min_le_left _ _
      _ ≤ 0 := by linarith
  have hne : ¬(mp ≤ 0 ∨ d.balance ≤ 0) := by
    push_neg
    constructor <;> linarith
  unfold calculate_debt_payoff
  rw [if_neg hne,
    payoffRun_sentinel d mp 600 d.balance 0 0 0 hbal (by norm_num) (by norm_num) hp0]
  exact ⟨rfl, rfl⟩

/-- Concrete loan used to witness the sentinel: balance 1000 at 1200 percent
annual rate (100 percent monthly), so one month of interest is 1000 while
the fixed payment is only 5. -/
theorem c2_sentinel_witness :
    (1:ℚ)/100 < c2Debt.balance ∧ payoffPrincipal c2Debt 5 c2Debt.balance ≤ 0 ∧
    (payoffRun c2Debt 5 600 c2Debt.balance 0 0 0).months = 999 ∧
    (payoffRun c2Debt 5 600 c2Debt.balance 0 0 0).total_interest = c2Debt.balance * 10 ∧
    (calculate_debt_payoff c2Debt 5).payoff_months = 999 ∧
    (calculate_debt_payoff c2Debt 5).total_interest = c2Debt.balance * 10 := by
  have hb : (1:ℚ)/100 < c2Debt.balance := by norm_num [c2Debt]
  have hp : payoffPrincipal c2Debt 5 c2Debt.balance ≤ 0 := by
    norm_num [c2Debt, payoffPrincipal, payoffCurrentPayment, payoffInterest, monthlyRate]
  have h := c2_sentinel c2Debt 5 600 c2Debt.balance 0 0 0 hb (by norm_num) (by norm_num) hp
  have htop := h.2.2.2 (by decide) (by norm_num) hb
    (by norm_num [c2Debt, payoffInterest, monthlyRate])
  exact ⟨hb, hp, h.1, h.2.1, htop.1, htop.2⟩

/-- For non-card debts the two loops compute the same principal portion. -/
theorem principal_agree (d : DebtItem) (mp bal : ℚ) (hcard : d.debt_type ≠ "card") :
    payoffPrincipal d mp bal = appPrincipal d mp bal := by
  unfold payoffPrincipal appPrincipal
  rw [payoffCurrentPayment_not_card d mp bal _ hcard]

/-- Correspondence between the backend and src/app payoff loops on non-card
debts: month counts and interest totals always agree, and outside the
sentinel branch the backend's accumulated payments equal the starting
accumulator plus payment times the number of months simulated — which is
exactly how the src/app version reconstructs total payments. -/
theorem payoffRun_agree (d : DebtItem) (mp : ℚ) (hcard : d.debt_type ≠ "card") :
    ∀ (fuel : ℕ) (bal : ℚ) (m : ℕ) (ti tp : ℚ),
      (payoffRun d mp fuel bal m ti tp).months = (appPayoffRun d mp fuel bal m ti).months ∧
      (payoffRun d mp fuel bal m ti tp).total_interest
        = (appPayoffRun d mp fuel bal m ti).total_interest ∧
      ((payoffRun d mp fuel bal m ti tp).months ≠ 999 →
        (payoffRun d mp fuel bal m ti tp).total_payments
          = tp + mp * (((payoffRun d mp fuel bal m ti tp).months : ℚ) - (m : ℚ))) := by
  intro fuel
  induction fuel with
  | zero =>
    intro bal m ti tp
    refine ⟨rfl, rfl, fun _ => ?_⟩
    simp [payoffRun]
  | succ f ih =>
    intro bal m ti tp
    by_cases hg : 1/100 < bal ∧ m < 600
    · by_cases hp : payoffPrincipal d mp bal ≤ 0
      · rw [payoffRun_sentinel d mp (f+1) bal m ti tp hg.1 hg.2 (Nat.succ_ne_zero f) hp,
          appPayoffRun_sentinel d mp (f+1) bal m ti hg.1 hg.2 (Nat.succ_ne_zero f)
            (by rw [← principal_agree d mp bal hcard]; exact hp)]
        exact ⟨rfl, rfl, fun h => absurd rfl h⟩
      · rw [payoffRun_step d mp (f+1) bal m ti tp hg.1 hg.2 (Nat.succ_ne_zero f) hp,
          appPayoffRun_step d mp (f+1) bal m ti hg.1 hg.2 (Nat.succ_ne_zero f)
            (by rw [← principal_agree d mp bal hcard]; exact hp)]
        simp only [Nat.add_sub_cancel]
        rw [← principal_agree d mp bal hcard,
          payoffCurrentPayment_not_card d mp bal _ hcard]
        obtain ⟨h1, h2, h3⟩ := ih (bal - payoffPrincipal d mp bal) (m + 1)
          (ti + payoffInterest d bal) (tp + mp)
        refine ⟨h1, h2, fun h999 => ?_⟩
        rw [h3 h999]
        push_cast
        ring
    · rw [payoffRun_stop d mp (f+1) bal m ti tp hg, appPayoffRun_stop d mp (f+1) bal m ti hg]
      refine ⟨rfl, rfl, fun _ => ?_⟩
      simp

/-- C10 (amended): for every non-card debt and fixed monthly payment the two
co-existing _calculate_debt_payoff implementations agree on payoff_months
and total_interest in every case, and on total_payments whenever the
non-amortizing sentinel is not hit; in the sentinel branch the src/app
version reports 999 times the payment while the backend reports 10 times
the balance, so total_payments is excluded there. -/
theorem c10_payoff_equivalence_amended (d : DebtItem) (mp : ℚ)
    (hcard : d.debt_type ≠ "card") :
    (app_calculate_debt_payoff d mp).payoff_months
      = (calculate_debt_payoff d mp).payoff_months ∧
    (app_calculate_debt_payoff d mp).total_interest
      = (calculate_debt_payoff d mp).total_interest ∧
    ((calculate_debt_payoff d mp).payoff_months ≠ 999 →
      (app_calculate_debt_payoff d mp).total_payments
        = (calculate_debt_payoff d mp).total_payments) := by
  unfold app_calculate_debt_payoff calculate_debt_payoff
  by_cases h0 : mp ≤ 0 ∨ d.balance ≤ 0
  · rw [if_pos h0, if_pos h0]
    exact ⟨rfl, rfl, fun _ => rfl⟩
  · rw [if_neg h0, if_neg h0]
    obtain ⟨h1, h2, h3⟩ := payoffRun_agree d mp hcard 600 d.balance 0 0 0
    refine ⟨h1.symm, h2.symm, fun h999 => ?_⟩
    simp only
    simp only at h999
    rw [h3 h999, ← h1]
    push_cast
    ring

/-- Concrete zero-rate loan used to witness the payoff agreement. -/
theorem c10_payoff_equivalence_amended_witness :
    c10WitnessDebt.debt_type ≠ "card" ∧
    (calculate_debt_payoff c10WitnessDebt 100).payoff_months ≠ 999 ∧
    (app_calculate_debt_payoff c10WitnessDebt 100).payoff_months
      = (calculate_debt_payoff c10WitnessDebt 100).payoff_months ∧
    (app_calculate_debt_payoff c10WitnessDebt 100).total_interest
      = (calculate_debt_payoff c10WitnessDebt 100).total_interest ∧
    (app_calculate_debt_payoff c10WitnessDebt 100).total_payments
      = (calculate_debt_payoff c10WitnessDebt 100).total_payments := by
  have hcard : c10WitnessDebt.debt_type ≠ "card" := by decide
  have h999 : (calculate_debt_payoff c10WitnessDebt 100).payoff_months ≠ 999 := by
    norm_num [c10WitnessDebt, calculate_debt_payoff, payoffRun_step, payoffRun_stop,
      payoffPrincipal, payoffCurrentPayment, payoffInterest, monthlyRate]
  obtain ⟨h1, h2, h3⟩ := c10_payoff_equivalence_amended c10WitnessDebt 100 hcard
  exact ⟨hcard, h999, h1, h2, h3 h999⟩

/-- Concrete loan on which the sentinel branch of the two implementations
reports different total payments: one month of interest is 1000 against a
payment of 5. -/
theorem c10_payoff_equivalence_counterexample :
    (app_calculate_debt_payoff c10Debt 5).total_payments = 4995 ∧
    (calculate_debt_payoff c10Debt 5).total_payments = 10000 ∧
    (4995 : ℚ) ≠ 10000 := by
  refine ⟨?_, ?_, by norm_num⟩
  · norm_num [c10Debt, app_calculate_debt_payoff, appPayoffRun_sentinel,
      appPayoffRun_stop, appPrincipal, payoffInterest, monthlyRate]
  · norm_num [c10Debt, calculate_debt_payoff, payoffRun_sentinel, payoffRun_stop,
      payoffPrincipal, payoffCurrentPayment, payoffInterest, monthlyRate]

/-- Python's sorted(..., key=k, reverse=True) and list.sort(key=k,
reverse=True) are stable descending sorts; insertion sort with the relation
that places a before b when k b ≤ k a realizes exactly that order. -/
theorem c9_silent_fallback_counterexample :
    (calculate_optimized_scenario [c9Debt] none).scenario_name = "Pago Mínimo" ∧
    (calculate_optimized_scenario [c9Debt] none).description
      = "Escenario donde solo se pagan los montos mínimos requeridos." ∧
    calculate_optimized_scenario [c9Debt] none
      = calculate_minimum_payment_scenario [c9Debt] :=
  ⟨rfl, rfl, rfl⟩

/-- C9 (amended): with the cashflow row absent the optimized computation
returns the minimum scenario verbatim — same name, same generic description,
no mention of the fallback (only the cashflow-present-but-no-extra branch
relabels the result with an explicit note); with no offers available the
consolidation computation does return the optimized scenario relabelled with
an explicit description stating that consolidation is unavailable.  Neither
path raises an error. -/
theorem c9_fallback_amended (d : DebtItem) (ds : List DebtItem)
    (cf : Option CustomerCashflow) :
    calculate_optimized_scenario (d :: ds) none
      = calculate_minimum_payment_scenario (d :: ds) ∧
    calculate_consolidation_scenario (d :: ds) cf []
      = { calculate_optimized_scenario (d :: ds) cf with
          scenario_name := "Consolidación",
          description := "No hay ofertas de consolidación disponibles. Se muestra plan optimizado." } := by
  constructor
  · rfl
  · simp [calculate_consolidation_scenario]

/-- Concrete zero-rate loan for the savings divergence: minimum payoff costs
no interest at all. -/
theorem c6_savings_divergence :
    0 < c6Cash.conservative_cashflow - ([c6Loan].map (·.minimum_payment)).sum ∧
    (calculate_minimum_payment_scenario [c6Loan]).total_interest = 0 ∧
    (calculate_minimum_payment_scenario [c6Loan]).total_interest
      < (calculate_consolidation_scenario [c6Loan] (some c6Cash) [c6Offer]).total_interest := by
  refine ⟨?_, ?_, ?_⟩
  · norm_num [c6Cash, c6Loan, CustomerCashflow.conservative_cashflow]
  · norm_num [c6Loan, calculate_minimum_payment_scenario, calculate_debt_payoff,
      payoffRun_step, payoffRun_stop, payoffPrincipal, payoffCurrentPayment,
      payoffInterest, monthlyRate]
  · norm_num [c6Loan, c6Cash, c6Offer, calculate_minimum_payment_scenario,
      calculate_consolidation_scenario, consolidationPartition, consolidationRest,
      pythonMinByRate, sortByDesc, List.insertionSort, BankOffer.calculate_new_payment,
      calculate_debt_payoff, payoffRun_step, payoffRun_stop, payoffPrincipal,
      payoffCurrentPayment, payoffInterest, monthlyRate]

/-- An offer with a zero term: unusable per the spec, and the cheapest by
rate. -/
theorem c8_unusable_offer_divergence :
    c8OfferZero.max_term_months = 0 ∧
    min_rate_offer [c8OfferZero, c8OfferNormal] = some c8OfferZero ∧
    (calculate_consolidation_scenario [c8Loan] none
        [c8OfferZero, c8OfferNormal]).total_interest = -1000 ∧
    ((-1000 : ℚ) < 0) := by
  refine ⟨rfl, ?_, ?_, by norm_num⟩
  · norm_num [min_rate_offer, pythonMinByRate, c8OfferZero, c8OfferNormal]
  · norm_num [c8Loan, c8OfferZero, c8OfferNormal, calculate_consolidation_scenario,
      consolidationPartition, consolidationRestMin, pythonMinByRate, sortByDesc,
      List.insertionSort, BankOffer.calculate_new_payment]

/-- The balances kept by the greedy selection plus its leftover capacity
always add up to the starting capacity. -/
theorem greedySelect_sum : ∀ (ds : List DebtItem) (cap : ℚ),
    (((greedySelect ds cap).1.map (·.balance)).sum + (greedySelect ds cap).2.2) = cap := by
  intro ds
  induction ds with
  | nil => intro cap; simp [greedySelect]
  | cons d ds ih =>
    intro cap
    by_cases h : d.balance ≤ cap
    · have := ih (cap - d.balance)
      simp only [greedySelect, if_pos h, List.map_cons, List.sum_cons]
      linarith
    · have := ih cap
      simp only [greedySelect, if_neg h]
      linarith

/-- The greedy selection never drives the remaining capacity negative. -/
theorem greedySelect_remaining_nonneg : ∀ (ds : List DebtItem) (cap : ℚ),
    0 ≤ cap → 0 ≤ (greedySelect ds cap).2.2 := by
  intro ds
  induction ds with
  | nil => intro cap h; simpa [greedySelect] using h
  | cons d ds ih =>
    intro cap h
    by_cases hb : d.balance ≤ cap
    · simp only [greedySelect, if_pos hb]
      exact ih (cap - d.balance) (by linarith)
    · simp only [greedySelect, if_neg hb]
      exact ih cap h

/-- Kept and demoted debts of the greedy selection form a permutation of its
input. -/
theorem greedySelect_perm : ∀ (ds : List DebtItem) (cap : ℚ),
    List.Perm ((greedySelect ds cap).1 ++ (greedySelect ds cap).2.1) ds := by
  intro ds
  induction ds with
  | nil => intro cap; simp [greedySelect]
  | cons d ds ih =>
    intro cap
    by_cases hb : d.balance ≤ cap
    · simp only [greedySelect, if_pos hb, List.cons_append]
      exact (ih (cap - d.balance)).cons d
    · simp only [greedySelect, if_neg hb]
      exact List.perm_middle.trans ((ih cap).cons d)

/-- C5: for every debt list and every chosen offer with a non-negative
balance cap, the debts the consolidation fitter actually consolidates have
total balance at most the offer's max_consolidated_balance; the consolidated
and unconsolidated buckets together are a permutation of the input debts;
and when the eligible balance exceeds the cap the consolidated bucket is
exactly the greedy selection over the eligible debts sorted by annual rate
descending, with the demoted debts appended to the unconsolidated bucket. -/
theorem c5_consolidation_cap (debts : List DebtItem) (offer : BankOffer)
    (hcap : 0 ≤ offer.max_consolidated_balance) :
    (((consolidationPartition debts offer).1.map (·.balance)).sum
        ≤ offer.max_consolidated_balance) ∧
    List.Perm
      ((consolidationPartition debts offer).1 ++ (consolidationPartition debts offer).2)
      debts ∧
    (offer.max_consolidated_balance
          < ((debts.filter (fun d => offer.product_types_eligible.contains d.debt_type)).map
              (·.balance)).sum →
      consolidationPartition debts offer =
        ((greedySelect (sortByDesc (·.annual_rate_pct)
            (debts.filter (fun d => offer.product_types_eligible.contains d.debt_type)))
            offer.max_consolidated_balance).1,
         debts.filter (fun d => !(offer.product_types_eligible.contains d.debt_type))
           ++ (greedySelect (sortByDesc (·.annual_rate_pct)
              (debts.filter (fun d => offer.product_types_eligible.contains d.debt_type)))
              offer.max_consolidated_balance).2.1)) := by
  unfold consolidationPartition
  by_cases hover : offer.max_consolidated_balance
      < ((debts.filter (fun d => offer.product_types_eligible.contains d.debt_type)).map
          (·.balance)).sum
  · simp only [if_pos hover]
    refine ⟨?_, ?_, fun _ => trivial⟩
    · have hsum := greedySelect_sum (sortByDesc (·.annual_rate_pct)
        (debts.filter (fun d => offer.product_types_eligible.contains d.debt_type)))
        offer.max_consolidated_balance
      have hrem := greedySelect_remaining_nonneg (sortByDesc (·.annual_rate_pct)
        (debts.filter (fun d => offer.product_types_eligible.contains d.debt_type)))
        offer.max_consolidated_balance hcap
      linarith
    · have hg := greedySelect_perm (sortByDesc (·.annual_rate_pct)
        (debts.filter (fun d => offer.product_types_eligible.contains d.debt_type)))
        offer.max_consolidated_balance
      have hsort : List.Perm
          (sortByDesc (·.annual_rate_pct)
            (debts.filter (fun d => offer.product_types_eligible.contains d.debt_type)))
          (debts.filter (fun d => offer.product_types_eligible.contains d.debt_type)) :=
        List.perm_insertionSort _ _
      have hfil := List.filter_append_perm
        (fun d => offer.product_types_eligible.contains d.debt_type) debts
      refine List.Perm.trans (List.Perm.append_left _ List.perm_append_comm) ?_
      refine List.Perm.trans ?_ hfil
      rw [← List.append_assoc]
      exact List.Perm.append_right _ (hg.trans hsort)
  · simp only [if_neg hover]
    refine ⟨by linarith [le_of_not_lt hover], ?_, fun h => absurd h hover⟩
    exact List.filter_append_perm _ debts

/-- Offer of Scenario C: cap 10000. -/
theorem c5_consolidation_cap_witness :
    (0:ℚ) ≤ c5Offer.max_consolidated_balance ∧
    consolidationPartition [c5LoanA, c5LoanB] c5Offer = ([c5LoanA], [c5LoanB]) ∧
    (((consolidationPartition [c5LoanA, c5LoanB] c5Offer).1.map (·.balance)).sum
      ≤ c5Offer.max_consolidated_balance) ∧
    List.Perm
      ((consolidationPartition [c5LoanA, c5LoanB] c5Offer).1
        ++ (consolidationPartition [c5LoanA, c5LoanB] c5Offer).2)
      [c5LoanA, c5LoanB] := by
  have h := c5_consolidation_cap [c5LoanA, c5LoanB] c5Offer (by norm_num [c5Offer])
  refine ⟨by norm_num [c5Offer], ?_, h.1, h.2.1⟩
  norm_num [consolidationPartition, greedySelect, sortByDesc, List.insertionSort,
    List.orderedInsert, c5LoanA, c5LoanB, c5Offer]

/-- Blended score of the enhanced offer selector
(enhanced_consolidation_service.py lines 174-180): 0.7 weight on the inverse
of rate plus one, 0.3 weight on the eligibility confidence. -/
theorem pythonMinByRate_le : ∀ (os : List BankOffer) (b : BankOffer),
    (pythonMinByRate b os).new_rate_pct ≤ b.new_rate_pct ∧
    (∀ x ∈ os, (pythonMinByRate b os).new_rate_pct ≤ x.new_rate_pct) ∧
    (pythonMinByRate b os = b ∨ pythonMinByRate b os ∈ os) := by
  intro os
  induction os with
  | nil => intro b; exact ⟨le_refl _, fun x hx => absurd hx (List.not_mem_nil x), Or.inl rfl⟩
  | cons o os ih =>
    intro b
    have hstep : pythonMinByRate b (o :: os)
        = pythonMinByRate (if o.new_rate_pct < b.new_rate_pct then o else b) os := rfl
    by_cases hc : o.new_rate_pct < b.new_rate_pct
    · obtain ⟨h1, h2, h3⟩ := ih o
      rw [hstep, if_pos hc]
      refine ⟨le_of_lt (lt_of_le_of_lt h1 hc), fun x hx => ?_, ?_⟩
      · rcases List.mem_cons.mp hx with rfl | hx
        · exact h1
        · exact h2 x hx
      · rcases h3 with h | h
        · exact Or.inr (by rw [h]; exact List.mem_cons_self o os)
        · exact Or.inr (List.mem_cons_of_mem o h)
    · obtain ⟨h1, h2, h3⟩ := ih b
      rw [hstep, if_neg hc]
      refine ⟨h1, fun x hx => ?_, ?_⟩
      · rcases List.mem_cons.mp hx with rfl | hx
        · exact le_trans h1 (le_of_not_lt hc)
        · exact h2 x hx
      · rcases h3 with h | h
        · exact Or.inl h
        · exact Or.inr (List.mem_cons_of_mem o h)

/-- The accumulator-tracked maximal-score fold: its result scores at least
the accumulator and every list element, and is one of them. -/
theorem select_best_offer_ge : ∀ (es : List (BankOffer × ℚ)) (b : BankOffer × ℚ),
    offer_score b ≤ offer_score (select_best_offer b es) ∧
    (∀ x ∈ es, offer_score x ≤ offer_score (select_best_offer b es)) ∧
    (select_best_offer b es = b ∨ select_best_offer b es ∈ es) := by
  intro es
  induction es with
  | nil => intro b; exact ⟨le_refl _, fun x hx => absurd hx (List.not_mem_nil x), Or.inl rfl⟩
  | cons o os ih =>
    intro b
    have hstep : select_best_offer b (o :: os)
        = select_best_offer (if offer_score b < offer_score o then o else b) os := rfl
    by_cases hc : offer_score b < offer_score o
    · obtain ⟨h1, h2, h3⟩ := ih o
      rw [hstep, if_pos hc]
      refine ⟨le_trans (le_of_lt hc) h1, fun x hx => ?_, ?_⟩
      · rcases List.mem_cons.mp hx with rfl | hx
        · exact h1
        · exact h2 x hx
      · rcases h3 with h | h
        · exact Or.inr (by rw [h]; exact List.mem_cons_self o os)
        · exact Or.inr (List.mem_cons_of_mem o h)
    · obtain ⟨h1, h2, h3⟩ := ih b
      rw [hstep, if_neg hc]
      refine ⟨h1, fun x hx => ?_, ?_⟩
      · rcases List.mem_cons.mp hx with rfl | hx
        · exact le_trans (le_of_not_lt hc) h1
        · exact h2 x hx
      · rcases h3 with h | h
        · exact Or.inl h
        · exact Or.inr (List.mem_cons_of_mem o h)

/-- Lower-rate offer for the confidence tie-break counterexample. -/
theorem c7_confidence_overrides_rate_counterexample :
    c7OfferA.new_rate_pct < c7OfferB.new_rate_pct ∧
    select_best_offer (c7OfferA, 7/10) [(c7OfferB, 1)] = (c7OfferB, 1) := by
  constructor
  · norm_num [c7OfferA, c7OfferB]
  · norm_num [select_best_offer, offer_score, c7OfferA, c7OfferB]

/-- C7 (amended): among the eligible candidates the basic consolidation
path (src/app line 193 and backend line 398) selects an offer of minimal
new_rate_pct, while the enhanced confidence-weighted selector maximizes the
blended score 0.7/(rate+1) + 0.3*confidence — a criterion under which a
higher-rate offer with sufficiently higher confidence can be preferred to a
lower-rate one, so rate does not dominate that selector. -/
theorem c7_offer_selection_amended (o : BankOffer) (os : List BankOffer)
    (e : BankOffer × ℚ) (es : List (BankOffer × ℚ)) (b : BankOffer)
    (hb : min_rate_offer (o :: os) = some b) :
    (∀ x ∈ o :: os, b.new_rate_pct ≤ x.new_rate_pct) ∧ b ∈ o :: os ∧
    (∀ x ∈ e :: es, offer_score x ≤ offer_score (select_best_offer e es)) ∧
    select_best_offer e es ∈ e :: es := by
  have hbo : pythonMinByRate o os = b := by
    have : some (pythonMinByRate o os) = some b := hb
    exact Option.some.inj this
  obtain ⟨h1, h2, h3⟩ := pythonMinByRate_le os o
  obtain ⟨g1, g2, g3⟩ := select_best_offer_ge es e
  refine ⟨fun x hx => ?_, ?_, fun x hx => ?_, ?_⟩
  · rw [← hbo]
    rcases List.mem_cons.mp hx with rfl | hx
    · exact h1
    · exact h2 x hx
  · rw [← hbo]
    rcases h3 with h | h
    · rw [h]; exact List.mem_cons_self o os
    · exact List.mem_cons_of_mem o h
  · rcases List.mem_cons.mp hx with rfl | hx
    · exact g1
    · exact g2 x hx
  · rcases g3 with h | h
    · rw [h]; exact List.mem_cons_self e es
    · exact List.mem_cons_of_mem e h

/-- C7 witness: the amended selection statement instantiated on the two
concrete offers: the basic path returns the 20 percent offer (minimal rate)
and the enhanced selector returns a member maximizing the blended score. -/
theorem c7_offer_selection_amended_witness :
    min_rate_offer [c7OfferA, c7OfferB] = some c7OfferA ∧
    (∀ x ∈ [c7OfferA, c7OfferB], c7OfferA.new_rate_pct ≤ x.new_rate_pct) ∧
    c7OfferA ∈ [c7OfferA, c7OfferB] ∧
    (∀ x ∈ [(c7OfferA, (7:ℚ)/10), (c7OfferB, 1)],
      offer_score x ≤ offer_score (select_best_offer (c7OfferA, 7/10) [(c7OfferB, 1)])) ∧
    select_best_offer (c7OfferA, 7/10) [(c7OfferB, 1)]
      ∈ [(c7OfferA, (7:ℚ)/10), (c7OfferB, 1)] := by
  have hb : min_rate_offer [c7OfferA, c7OfferB] = some c7OfferA := by
    norm_num [min_rate_offer, pythonMinByRate, c7OfferA, c7OfferB]
  obtain ⟨h1, h2, h3, h4⟩ := c7_offer_selection_amended c7OfferA [c7OfferB]
    (c7OfferA, 7/10) [(c7OfferB, 1)] c7OfferA hb
  exact ⟨hb, h1, h2, h3, h4⟩

/-- Specification-level form of the avalanche second pass: the extra budget
is applied to the single first active debt of the ranked list — capped by
that debt's balance, with the epsilon zeroing of the source — and every
other entry is left untouched. -/
theorem extraPass_spec : ∀ (l : List (DebtItem × ℚ)) (r : ℚ), 0 < r →
    extraPass l r = (specApplyExtra l r, specExtraAmount l r) := by
  intro l
  induction l with
  | nil => intro r hr; rfl
  | cons p rest ih =>
    intro r hr
    obtain ⟨d, bal⟩ := p
    by_cases ha : 1/100 < bal
    · have hfind : List.find? (fun p => decide (1/100 < p.2)) ((d, bal) :: rest)
          = some (d, bal) := List.find?_cons_of_pos _ (by simpa using ha)
      simp only [extraPass, specApplyExtra, specExtraAmount, if_pos (And.intro ha hr),
        if_pos ha, hfind]
    · have hfind : List.find? (fun p => decide (1/100 < p.2)) ((d, bal) :: rest)
          = List.find? (fun p => decide (1/100 < p.2)) rest :=
        List.find?_cons_of_neg _ (by simpa using ha)
      have hcond : ¬(1/100 < bal ∧ 0 < r) := fun h => ha h.1
      simp only [extraPass, specApplyExtra, specExtraAmount, if_neg hcond, if_neg ha,
        hfind, ih r hr]

/-- The recipient of the extra payment depends only on the ranked debts and
on which of them are active: two balance lists over the same debts with the
same activity pattern have the same first active debt. -/
theorem findActive_mask : ∀ (l₁ l₂ : List (DebtItem × ℚ)),
    l₁.map Prod.fst = l₂.map Prod.fst →
    l₁.map (fun p => decide (1/100 < p.2)) = l₂.map (fun p => decide (1/100 < p.2)) →
    (l₁.find? (fun p => decide (1/100 < p.2))).map Prod.fst
      = (l₂.find? (fun p => decide (1/100 < p.2))).map Prod.fst := by
  intro l₁
  induction l₁ with
  | nil =>
    intro l₂ hfst _
    cases l₂ with
    | nil => rfl
    | cons q l₂ => simp at hfst
  | cons p l₁ ih =>
    intro l₂ hfst hmask
    cases l₂ with
    | nil => simp at hfst
    | cons q l₂ =>
      simp only [List.map_cons, List.cons.injEq] at hfst hmask
      by_cases ha : 1/100 < p.2
      · have hq : 1/100 < q.2 := by
          have := hmask.1
          rw [decide_eq_true ha] at this
          exact of_decide_eq_true this.symm
        rw [List.find?_cons_of_pos _ (by simpa using ha),
          List.find?_cons_of_pos _ (by simpa using hq)]
        simpa using hfst.1
      · have hq : ¬ 1/100 < q.2 := by
          intro hc
          have h1 := hmask.1
          rw [decide_eq_false ha, decide_eq_true hc] at h1
          exact Bool.false_ne_true h1
        rw [List.find?_cons_of_neg _ (by simpa using ha),
          List.find?_cons_of_neg _ (by simpa using hq)]
        exact ih l₂ hfst.2 hmask.2

/-- C3 (amended): in every avalanche month the budget left after minimums is
applied to at most one debt — the first still-active debt of the ranked
list — in the amount min(remaining budget, that debt's balance); budget
beyond that debt's balance is not applied to any other debt that month
(extraPass equals the single-target specification form); and the recipient
is a function of the ranked debts and their activity pattern alone, so two
months with the same active set give the extra to the same debt. -/
theorem c3_extra_single_target (l l₁ l₂ : List (DebtItem × ℚ)) (r : ℚ)
    (hr : 0 < r) (hfst : l₁.map Prod.fst = l₂.map Prod.fst)
    (hmask : l₁.map (fun p => decide (1/100 < p.2))
      = l₂.map (fun p => decide (1/100 < p.2))) :
    extraPass l r = (specApplyExtra l r, specExtraAmount l r) ∧
    (l₁.find? (fun p => decide (1/100 < p.2))).map Prod.fst
      = (l₂.find? (fun p => decide (1/100 < p.2))).map Prod.fst :=
  ⟨extraPass_spec l r hr, findActive_mask l₁ l₂ hfst hmask⟩

/-- High-rate loan of the avalanche counterexample. -/
theorem c3_extra_entirely_counterexample :
    (monthStep 500 [(c3DebtA, 50), (c3DebtB, 1000)]).2.2 = 285/4 ∧
    (285:ℚ)/4 < 500 ∧
    (monthStep 500 [(c3DebtA, 50), (c3DebtB, 1000)]).1
      = [(c3DebtA, 0), (c3DebtB, 2965/3)] ∧
    (1:ℚ)/100 < 2965/3 := by
  refine ⟨?_, by norm_num, ?_, by norm_num⟩ <;>
    norm_num [monthStep, minimumsPass, extraPass, effectiveMinPayment, monthlyRate,
      c3DebtA, c3DebtB]

/-- C3 witness: the single-target equality and the activity-mask
determinism instantiated on the counterexample month's balances and on a
second month with different balances but the same activity pattern. -/
theorem c3_extra_single_target_witness :
    (0:ℚ) < 470 ∧
    ([((c3DebtA : DebtItem), (165:ℚ)/4), (c3DebtB, 2965/3)].map Prod.fst
      = [((c3DebtA : DebtItem), (20:ℚ)), (c3DebtB, 5)].map Prod.fst) ∧
    extraPass [(c3DebtA, 165/4), (c3DebtB, 2965/3)] 470
      = (specApplyExtra [(c3DebtA, 165/4), (c3DebtB, 2965/3)] 470,
         specExtraAmount [(c3DebtA, 165/4), (c3DebtB, 2965/3)] 470) ∧
    (([((c3DebtA : DebtItem), (165:ℚ)/4), (c3DebtB, 2965/3)].find?
        (fun p => decide (1/100 < p.2))).map Prod.fst
      = (([((c3DebtA : DebtItem), (20:ℚ)), (c3DebtB, 5)]).find?
        (fun p => decide (1/100 < p.2))).map Prod.fst) := by
  have h := c3_extra_single_target
    [(c3DebtA, 165/4), (c3DebtB, 2965/3)]
    [(c3DebtA, 165/4), (c3DebtB, 2965/3)]
    [(c3DebtA, 20), (c3DebtB, 5)] 470 (by norm_num) (by norm_num)
    (by norm_num)
  exact ⟨by norm_num, by norm_num, h.1, h.2⟩

/-- Inserting x into a list puts it before every element of equal key (the
elements skipped over all have strictly larger keys), so the sublist of any
fixed key value gains x at the front when x carries that key and is
otherwise unchanged. -/
theorem orderedInsert_filter_key (k : DebtItem → ℚ) (c : ℚ) (x : DebtItem) :
    ∀ l : List DebtItem,
      (List.orderedInsert (fun a b => k b ≤ k a) x l).filter (fun d => decide (k d = c))
        = if k x = c then x :: l.filter (fun d => decide (k d = c))
          else l.filter (fun d => decide (k d = c)) := by
  intro l
  induction l with
  | nil => by_cases h : k x = c <;> simp [List.orderedInsert, h]
  | cons b l ih =>
    by_cases hbx : k b ≤ k x
    · simp only [List.orderedInsert, if_pos hbx]
      by_cases h : k x = c <;> simp [List.filter_cons, h]
    · have hlt : k x < k b := not_le.mp hbx
      simp only [List.orderedInsert, if_neg hbx]
      by_cases h : k x = c
      · have hbc : ¬ k b = c := fun e => ne_of_gt hlt (e.trans h.symm)
        simp [List.filter_cons, h, hbc, ih]
      · by_cases hb : k b = c <;> simp [List.filter_cons, h, hb, ih]

/-- Stability of the descending sort: for every key value, the elements
carrying that key appear in the sorted list in their original order. -/
theorem sortByDesc_filter_key (k : DebtItem → ℚ) (c : ℚ) :
    ∀ l : List DebtItem,
      (sortByDesc k l).filter (fun d => decide (k d = c))
        = l.filter (fun d => decide (k d = c)) := by
  intro l
  induction l with
  | nil => rfl
  | cons x l ih =>
    have : sortByDesc k (x :: l)
        = List.orderedInsert (fun a b => k b ≤ k a) x (sortByDesc k l) := rfl
    rw [this, orderedInsert_filter_key]
    by_cases h : k x = c <;> simp [List.filter_cons, h, ih]

/-- Card and loan used to exhibit rate order disagreeing with score order. -/
theorem c4_rate_vs_priority_counterexample :
    (loanToDebtItem c4Loan).priority_score < (cardToDebtItem c4Card).priority_score ∧
    sortByDesc (·.annual_rate_pct) [cardToDebtItem c4Card, loanToDebtItem c4Loan]
      = [loanToDebtItem c4Loan, cardToDebtItem c4Card] := by
  constructor
  · norm_num [loanToDebtItem, cardToDebtItem, Loan.priority_score, Card.priority_score,
      c4Loan, c4Card]
  · norm_num [sortByDesc, List.insertionSort, List.orderedInsert, loanToDebtItem,
      cardToDebtItem, c4Loan, c4Card, Loan.minimum_payment, Loan.monthly_rate,
      Card.minimum_payment, Loan.priority_score, Card.priority_score]

/-- C4 (amended): the PriorityRanker score is as the claim's formula states
— base rate, half a point per day past due when past due, plus a bonus of 5
for unsecured loans and of 10 for cards — but the backend avalanche
allocator ranks debts for extra-payment allocation by annual_rate_pct
descending with Python's stable sort, not by that score: the ranked list is
rate-descending sorted, a permutation of the input, and preserves the input
order among debts of equal rate. -/
theorem c4_allocator_order_amended (debts : List DebtItem) (l : Loan) (c : Card)
    (cv : ℚ) :
    l.priority_score = l.annual_rate_pct
        + (if 0 < l.days_past_due then (l.days_past_due : ℚ) * (1/2) else 0)
        + (if l.collateral then 0 else 5) ∧
    c.priority_score = c.annual_rate_pct
        + (if 0 < c.days_past_due then (c.days_past_due : ℚ) * (1/2) else 0) + 10 ∧
    List.Sorted (fun a b => b.annual_rate_pct ≤ a.annual_rate_pct)
      (sortByDesc (·.annual_rate_pct) debts) ∧
    List.Perm (sortByDesc (·.annual_rate_pct) debts) debts ∧
    (sortByDesc (·.annual_rate_pct) debts).filter
        (fun d => decide (d.annual_rate_pct = cv))
      = debts.filter (fun d => decide (d.annual_rate_pct = cv)) := by
  haveI htot : IsTotal DebtItem (fun a b => b.annual_rate_pct ≤ a.annual_rate_pct) :=
    ⟨fun a b => le_total b.annual_rate_pct a.annual_rate_pct⟩
  haveI htr : IsTrans DebtItem (fun a b => b.annual_rate_pct ≤ a.annual_rate_pct) :=
    ⟨fun _ _ _ hab hbc => le_trans hbc hab⟩
  refine ⟨?_, ?_, ?_, ?_, ?_⟩
  · unfold Loan.priority_score
    by_cases h1 : 0 < l.days_past_due <;> by_cases h2 : l.collateral <;>
      simp [h1, h2]
  · unfold Card.priority_score
    by_cases h1 : 0 < c.days_past_due <;> simp [h1]
  · exact List.sorted_insertionSort _ debts
  · exact List.perm_insertionSort _ debts
  · exact sortByDesc_filter_key (·.annual_rate_pct) cv debts
